import Mathlib

/-!
Verification of the NFS-e gateway (`server.js`, Portal Nacional proxy).

The development shallowly embeds the request-handling core of the source:
the JSON value domain the handlers manipulate, the `tryDecodeXml` decoding
heuristic (both near-duplicate copies present in the source), the
`safeInt` / `safeBool` coercion helpers, the mTLS client builders
(`buildMtlsAgent` / `buildAxios`), `buildErrorDebug`, and the two route
handlers `GET /nfse/distribuicao` and `GET /nfse/documento`.

Node primitives that are not part of the repository (base64 decoding via
`Buffer.from(v, "base64")`, `zlib.gunzipSync`, UTF-8 rendering via
`Buffer.prototype.toString("utf8")`) are abstracted as a parameter
structure `Prim`; theorems that need environmental facts about them
(e.g. that gunzipping an empty buffer throws) take those facts as
hypotheses, each one a documented behaviour of the Node standard library.
-/

namespace NfseGateway

/-- JSON-ish JavaScript values as seen by the handlers: the upstream
envelope is JSON-parsed data, query parameters are strings, and optional
chaining can surface `undefined`.  `NaN` is outside the modelled numeric
domain (numbers are integers here); no claim depends on it. -/
inductive JSVal where
  | vUndefined
  | vNull
  | vBool (b : Bool)
  | vNum (n : Int)
  | vStr (s : String)
  | vArr (xs : List JSVal)
  | vObj (fields : List (String × JSVal))

/-- JavaScript truthiness on the modelled value domain:
`undefined`, `null`, `false`, `0` and `""` are falsy, everything else
(including every array and object) is truthy. -/
def truthy : JSVal → Bool
  | .vUndefined => false
  | .vNull => false
  | .vBool b => b
  | .vNum n => decide (n ≠ 0)
  | .vStr s => decide (s ≠ "")
  | .vArr _ => true
  | .vObj _ => true

/-- Optional-chaining property access `v?.key`: a present field of an
object is returned, anything else (missing field, non-object, `null`,
`undefined`) yields `undefined`. -/
def getField (v : JSVal) (key : String) : JSVal :=
  match v with
  | .vObj fields =>
    match fields.lookup key with
    | some w => w
    | none => .vUndefined
  | _ => .vUndefined

/-- Whitespace recognised by `String.prototype.trim` (the code points that
matter on the modelled inputs: tab, LF, VT, FF, CR, space, NBSP, BOM). -/
def isJsWs (c : Char) : Bool :=
  decide (c.toNat = 9 ∨ c.toNat = 10 ∨ c.toNat = 11 ∨ c.toNat = 12 ∨
          c.toNat = 13 ∨ c.toNat = 32 ∨ c.toNat = 160 ∨ c.toNat = 65279)

/-- Both-ends whitespace trimming on the character list, modelling
`String.prototype.trim`. -/
def jsTrimList (l : List Char) : List Char :=
  ((l.dropWhile isJsWs).reverse.dropWhile isJsWs).reverse

/-- `s.trim()` as a string-to-string function. -/
def jsTrim (s : String) : String := String.mk (jsTrimList s.data)

/-- `s.trim().startsWith("<")`: after trimming, the first character is
`<`. -/
def trimStartsLt (s : String) : Bool :=
  match jsTrimList s.data with
  | [] => false
  | c :: _ => c == '<'

/-- Node standard-library primitives used by `tryDecodeXml`, abstracted:
`bufferFromBase64 v` models `Buffer.from(v, "base64")` (`none` when the
call throws, e.g. on non-buffer-convertible values), `gunzip` models
`zlib.gunzipSync` (`none` when it throws on a non-gzip stream), `toUtf8`
models `Buffer.prototype.toString("utf8")` (total: undecodable bytes
become replacement characters). -/
structure Prim where
  bufferFromBase64 : JSVal → Option (List Nat)
  gunzip : List Nat → Option (List Nat)
  toUtf8 : List Nat → String

/-- First `try` block of `tryDecodeXml`: base64-decode, gunzip, render as
UTF-8; succeed only if the trimmed text starts with `<`.  A thrown
decode/decompress error and a non-`<` result both fall through
(`none`). -/
def step1 (p : Prim) (v : JSVal) : Option String :=
  match p.bufferFromBase64 v with
  | none => none
  | some buff =>
    match p.gunzip buff with
    | none => none
    | some unzipped =>
      let xml := p.toUtf8 unzipped
      if trimStartsLt xml then some xml else none

/-- Second `try` block of `tryDecodeXml`: base64-decode only, render as
UTF-8; succeed only if the trimmed text starts with `<`. -/
def step2 (p : Prim) (v : JSVal) : Option String :=
  match p.bufferFromBase64 v with
  | none => none
  | some buff =>
    let s := p.toUtf8 buff
    if trimStartsLt s then some s else none

/-- Third stage of `tryDecodeXml`: the original value is already raw XML
text (a string whose trimmed form starts with `<`). -/
def step3 (v : JSVal) : Option String :=
  match v with
  | .vStr s => if trimStartsLt s then some s else none
  | _ => none

/-- `tryDecodeXml` as written in the source (first copy, lines 77–105):
an early `if (!arquivoXml) return null` guard, then the three stages in
order. -/
def tryDecodeXml (p : Prim) (arquivoXml : JSVal) : Option String :=
  if truthy arquivoXml then
    match step1 p arquivoXml with
    | some xml => some xml
    | none =>
      match step2 p arquivoXml with
      | some s => some s
      | none => step3 arquivoXml
  else none

/-- The four-step reference definition of the decoding heuristic, written
from the specification's words: try gzip+base64, then plain base64, then
raw XML text, else absence — with no preliminary guard. -/
def specTryDecodeXml (p : Prim) (v : JSVal) : Option String :=
  match step1 p v with
  | some xml => some xml
  | none =>
    match step2 p v with
    | some s => some s
    | none => step3 v

/-- Stages 2 and 3 of the second near-duplicate copy of the decoding
function (source lines 290–304): plain base64, then raw-XML check. -/
def tryDecodeXmlV2Rest (p : Prim) (arquivoXml : JSVal) : Option String :=
  match p.bufferFromBase64 arquivoXml with
  | some buff =>
    let s := p.toUtf8 buff
    if trimStartsLt s then some s
    else match arquivoXml with
      | .vStr str => if trimStartsLt str then some str else none
      | _ => none
  | none =>
    match arquivoXml with
    | .vStr str => if trimStartsLt str then some str else none
    | _ => none

/-- Second near-duplicate copy of the decoding function (source lines
277–305), translated independently of the first copy: the same falsy
guard and the same three `try` stages, written in continuation style. -/
def tryDecodeXmlV2 (p : Prim) (arquivoXml : JSVal) : Option String :=
  if truthy arquivoXml then
    match p.bufferFromBase64 arquivoXml with
    | some buff =>
      match p.gunzip buff with
      | some unzipped =>
        let xml := p.toUtf8 unzipped
        if trimStartsLt xml then some xml else tryDecodeXmlV2Rest p arquivoXml
      | none => tryDecodeXmlV2Rest p arquivoXml
    | none => tryDecodeXmlV2Rest p arquivoXml
  else none

/-- Decimal digit test on a character (`0`–`9`). -/
def isDigitChar (c : Char) : Bool :=
  decide (48 ≤ c.toNat ∧ c.toNat ≤ 57)

/-- Numeric value of a decimal digit character. -/
def digitVal (c : Char) : Nat := c.toNat - 48

/-- Character for a decimal digit. -/
def digitChar (d : Nat) : Char := Char.ofNat (48 + d)

/-- Fuel-indexed decimal rendering of a natural number (most significant
digit first); `fuel > n` suffices for full rendering. -/
def natDecimalGo (fuel : Nat) (n : Nat) : List Char :=
  match fuel with
  | 0 => []
  | fuel + 1 =>
    if n < 10 then [digitChar n]
    else natDecimalGo fuel (n / 10) ++ [digitChar (n % 10)]

/-- Decimal digit list of a natural number. -/
def natDecimalList (n : Nat) : List Char := natDecimalGo (n + 1) n

/-- JavaScript number-to-string conversion (template-literal
interpolation `${n}`) on the modelled integer domain: decimal rendering,
with a leading minus sign for negatives. -/
def jsIntToString (i : Int) : String :=
  match i with
  | .ofNat n => String.mk (natDecimalList n)
  | .negSucc m => String.mk ('-' :: natDecimalList (m + 1))

/-- Parse a non-empty all-digit character list as a natural number;
`none` on an empty list or any non-digit character. -/
def parseDigits (l : List Char) : Option Nat :=
  if l.isEmpty then none
  else if l.all isDigitChar then
    some (l.foldl (fun a c => a * 10 + digitVal c) 0)
  else none

/-- JavaScript `Number(s)` on a string, restricted to the modelled
numeric domain: trim; an empty (or all-whitespace) string is `0`; an
optionally signed decimal integer literal is its value; anything else is
`NaN` (`none`).  Fractional, exponent, hex and infinity literals are
outside the modelled domain — no claim exercises them. -/
def jsStringToNumber (s : String) : Option Int :=
  match jsTrimList s.data with
  | [] => some 0
  | c :: rest =>
    if c = '-' then (parseDigits rest).map (fun n => -(n : Int))
    else if c = '+' then (parseDigits rest).map (fun n => (n : Int))
    else (parseDigits (c :: rest)).map (fun n => (n : Int))

/-- `Number(v)` on an optional query-parameter value:
`Number(undefined)` is `NaN`. -/
def jsToNumber : Option String → Option Int
  | none => none
  | some s => jsStringToNumber s

/-- `safeInt(v, fallback)` from the source: `Number(v)` when finite,
otherwise the fallback. -/
def safeInt (v : Option String) (fallback : Int) : Int :=
  match jsToNumber v with
  | some n => n
  | none => fallback

/-- `safeBool(v, fallback)` from the source, on query-parameter values:
`undefined` gives the fallback; otherwise lower-case and trim, accept
`"true"`/`"1"`/`"sim"` as true and `"false"`/`"0"`/`"nao"`/`"não"` as
false, anything else gives the fallback.  (Case mapping is ASCII here;
no claim exercises non-ASCII flags.) -/
def safeBool (v : Option String) (fallback : Bool) : Bool :=
  match v with
  | none => fallback
  | some s =>
    let t := jsTrim s.toLower
    if t == "true" || t == "1" || t == "sim" then true
    else if t == "false" || t == "0" || t == "nao" || t == "não" then false
    else fallback

/-- Truthiness of an optional query-parameter string (`!req.query.nsu`):
absent and empty are falsy. -/
def strOptTruthy : Option String → Bool
  | none => false
  | some s => decide (s ≠ "")

/-- Process configuration (environment variables); `none` models an
unset variable, `some ""` an empty one — both falsy in the source's
presence checks. -/
structure Config where
  nacionalBaseURL : Option String
  certPfxBase64 : Option String
  certPfxPassphrase : Option String

/-- The `https.Agent` produced by `buildMtlsAgent`.  `Buffer.from(s,
"base64")` on a string is total (Node's forgiving decoder never throws)
and `https.Agent` stores its options without parsing the PKCS#12
material at construction time, so the agent is modelled by the options
the source passes; `pfxBase64` carries the (undecoded) certificate
blob. -/
structure MtlsAgent where
  pfxBase64 : String
  passphrase : String
  rejectUnauthorized : Bool
  minVersion : String

/-- `buildMtlsAgent` (source lines 31–43): throw a configuration error
when the blob or the passphrase is missing, otherwise construct the
agent with chain validation on and TLS ≥ 1.2. -/
def buildMtlsAgent (cfg : Config) : Except String MtlsAgent :=
  if ¬ strOptTruthy cfg.certPfxBase64 then .error "CERT_PFX_BASE64 ausente"
  else if ¬ strOptTruthy cfg.certPfxPassphrase then .error "CERT_PFX_PASSPHRASE ausente"
  else .ok
    { pfxBase64 := cfg.certPfxBase64.getD ""
      passphrase := cfg.certPfxPassphrase.getD ""
      rejectUnauthorized := true
      minVersion := "TLSv1.2" }

/-- The axios instance produced by `buildAxios`. -/
structure AxiosClient where
  baseURL : String
  httpsAgent : MtlsAgent
  timeout : Nat
  acceptHeader : String

/-- `buildAxios` (source lines 45–59): throw when the base URL is
missing, build the mTLS agent (propagating its configuration error),
and bind the client to the base URL with a 60 s timeout. -/
def buildAxios (cfg : Config) : Except String AxiosClient :=
  if ¬ strOptTruthy cfg.nacionalBaseURL then .error "NACIONAL_BASE_URL ausente"
  else
    match buildMtlsAgent cfg with
    | .error e => .error e
    | .ok agent => .ok
      { baseURL := cfg.nacionalBaseURL.getD ""
        httpsAgent := agent
        timeout := 60000
        acceptHeader := "application/json, text/plain, application/xml, */*" }

/-- An error thrown inside a handler's `try` block: an axios failure
carries an optional upstream response (status and body) and the config
of the attempted request; a locally thrown `Error` (configuration
failure) has neither response nor config. -/
structure UpstreamErr where
  response : Option (Nat × JSVal)
  message : String
  configBaseURL : Option String
  configUrl : Option String

/-- Outcome of the single upstream `api.get` call, supplied by the
environment. -/
inductive UpstreamOutcome where
  | ok (data : JSVal)
  | fail (e : UpstreamErr)

/-- One outbound upstream request as dispatched by a handler. -/
structure UpstreamCall where
  path : String
  cnpjConsulta : Option String
  lote : Bool

/-- Result of `buildErrorDebug` (source lines 107–115). -/
structure ErrorDebug where
  status : Nat
  respData : JSVal
  baseURL : Option String
  url : Option String
  fullUrl : String

/-- `buildErrorDebug` from the source: status is
`err?.response?.status || 500`, the detail is
`err?.response?.data || { message: err?.message || defaultMessage }`,
and `fullUrl` concatenates the config's base URL and path (empty string
for a missing piece). -/
def buildErrorDebug (err : UpstreamErr) (defaultMessage : String) : ErrorDebug :=
  let status : Nat :=
    match err.response with
    | some st => if st.1 = 0 then 500 else st.1
    | none => 500
  let fallbackMsg : JSVal :=
    .vObj [("message", .vStr (if err.message = "" then defaultMessage else err.message))]
  let respData : JSVal :=
    match err.response with
    | some st => if truthy st.2 then st.2 else fallbackMsg
    | none => fallbackMsg
  { status := status
    respData := respData
    baseURL := err.configBaseURL
    url := err.configUrl
    fullUrl := (err.configBaseURL.getD "") ++ (err.configUrl.getD "") }

/-- A response body: `res.json(...)` or `res.send(string)`. -/
inductive Body where
  | json (v : JSVal)
  | text (s : String)

/-- An HTTP response produced by a handler. -/
structure HttpResponse where
  status : Nat
  headers : List (String × String)
  body : Body

/-- A handler run: the response sent and the upstream calls dispatched,
in order. -/
structure HandlerResult where
  resp : HttpResponse
  calls : List UpstreamCall

/-- The query parameters of an inbound request (each absent or a
string). -/
structure Request where
  nsu : Option String
  cnpjConsulta : Option String
  lote : Option String

/-- The JSON value of a response body (a text body as its string). -/
def bodyJson (r : HttpResponse) : JSVal :=
  match r.body with
  | .json v => v
  | .text s => .vStr s

/-- The 400 response both endpoints send when `nsu` is missing. -/
def nsuMissingResp : HttpResponse :=
  { status := 400
    headers := []
    body := .json (.vObj [("erro", .vStr "Informe o parâmetro nsu (ex: ?nsu=1)")]) }

/-- The catch-block JSON error body common to both handlers. -/
def jsonErrBody (label : String) (dbg : ErrorDebug) : JSVal :=
  .vObj [("erro", .vStr label),
         ("status", .vNum (Int.ofNat dbg.status)),
         ("fullUrl", .vStr dbg.fullUrl),
         ("detalhe", dbg.respData)]

/-- The catch-block response common to both handlers. -/
def errResp (label : String) (e : UpstreamErr) : HttpResponse :=
  let dbg := buildErrorDebug e label
  { status := dbg.status, headers := [], body := .json (jsonErrBody label dbg) }

/-- Handler of `GET /nfse/distribuicao` (source lines 123–150): reject a
falsy `nsu` with 400 before anything else; otherwise coerce the
parameters, build the client (a thrown configuration error is caught
with no upstream call made), dispatch `GET /DFe/{nsu}` once, and either
pass the upstream JSON through with status 200 or report the failure
via `buildErrorDebug`. -/
def distribuicaoHandler (cfg : Config) (upstream : UpstreamOutcome) (req : Request) :
    HandlerResult :=
  if strOptTruthy req.nsu then
    let nsu := safeInt req.nsu 0
    let lote := safeBool req.lote true
    match buildAxios cfg with
    | .error msg =>
      { resp := errResp "Falha ao consultar Portal Nacional"
          { response := none, message := msg, configBaseURL := none, configUrl := none }
        calls := [] }
    | .ok _ =>
      let call : UpstreamCall :=
        { path := "/DFe/" ++ jsIntToString nsu, cnpjConsulta := req.cnpjConsulta, lote := lote }
      match upstream with
      | .ok data =>
        { resp := { status := 200, headers := [], body := .json data }, calls := [call] }
      | .fail e =>
        { resp := errResp "Falha ao consultar Portal Nacional" e, calls := [call] }
  else { resp := nsuMissingResp, calls := [] }

/-- Candidate selection of the document endpoint (source lines
171–174): when `payload?.LoteDFe` is an array, the first element whose
`ArquivoXml` field is truthy; otherwise no candidate. -/
def selectItemComXml (payload : JSVal) : Option JSVal :=
  match getField payload "LoteDFe" with
  | .vArr l => l.find? (fun x => truthy (getField x "ArquivoXml"))
  | _ => none

/-- XML extraction of the document endpoint (source lines 171–176):
decode the selected candidate's `ArquivoXml` (optional chaining gives
`undefined` when there is no candidate). -/
def docXml (p : Prim) (payload : JSVal) : Option String :=
  tryDecodeXml p
    (match selectItemComXml payload with
     | some item => getField item "ArquivoXml"
     | none => .vUndefined)

/-- Handler of `GET /nfse/documento` (source lines 153–199): same input
contract and upstream call as the distribution handler; on upstream
success, extract the XML — 404 with a diagnostic body carrying the raw
envelope when none is found, otherwise 200 with the XML as an
attachment. -/
def documentoHandler (p : Prim) (cfg : Config) (upstream : UpstreamOutcome) (req : Request) :
    HandlerResult :=
  if strOptTruthy req.nsu then
    let nsu := safeInt req.nsu 0
    let lote := safeBool req.lote true
    match buildAxios cfg with
    | .error msg =>
      { resp := errResp "Falha ao obter XML no Portal Nacional"
          { response := none, message := msg, configBaseURL := none, configUrl := none }
        calls := [] }
    | .ok _ =>
      let call : UpstreamCall :=
        { path := "/DFe/" ++ jsIntToString nsu, cnpjConsulta := req.cnpjConsulta, lote := lote }
      match upstream with
      | .fail e =>
        { resp := errResp "Falha ao obter XML no Portal Nacional" e, calls := [call] }
      | .ok payload =>
        match docXml p payload with
        | none =>
          { resp :=
              { status := 404
                headers := []
                body := .json (.vObj
                  [("erro", .vStr "XML não encontrado nesse NSU"),
                   ("dica", .vStr "Verifique se LoteDFe veio vazio, se o NSU existe, ou se ArquivoXml veio em formato inesperado."),
                   ("retorno", payload)]) }
            calls := [call] }
        | some xml =>
          { resp :=
              { status := 200
                headers :=
                  [("Content-Type", "application/xml; charset=utf-8"),
                   ("Content-Disposition",
                    "attachment; filename=\"nfse_" ++ jsIntToString nsu ++ ".xml\"")]
                body := .text xml }
            calls := [call] }
  else { resp := nsuMissingResp, calls := [] }

/-- A `Prim` instance used to evaluate witness instances: base64
decoding succeeds only on the empty string (yielding the empty buffer),
gunzip always throws, UTF-8 rendering of the empty buffer is empty. -/
def prim0 : Prim :=
  { bufferFromBase64 := fun v => match v with | .vStr "" => some [] | _ => none
    gunzip := fun _ => none
    toUtf8 := fun _ => "" }

/-- The continuation used by the second decoder copy agrees with the
chain of its last two stages. -/
theorem v2rest_eq (p : Prim) (v : JSVal) :
    tryDecodeXmlV2Rest p v =
      (match step2 p v with
       | some s => some s
       | none => step3 v) := by
  unfold tryDecodeXmlV2Rest step2 step3
  cases hb : p.bufferFromBase64 v
  · cases v <;> simp
  · simp only []
    split
    · rfl
    · cases v <;> simp

/--
C1: the decoding function `tryDecodeXml`, applied to any encoded payload
value, equals the four-step reference definition (base64+gzip, then
base64 only, then raw XML text, then absence), each step's failure
falling through to the next.  The hypotheses are documented Node
standard-library facts: `Buffer.from("", "base64")` is the empty buffer,
`zlib.gunzipSync` throws on an empty buffer, the empty buffer renders as
the empty string, and `Buffer.from(v, "base64")` throws on `null`,
`undefined`, `false` and `0`.  Both sides are total, so no error is ever
propagated.
-/
theorem tryDecodeXml_matches_spec_reference (p : Prim)
    (hEmptyBuf : p.bufferFromBase64 (.vStr "") = some [])
    (hGunzipNil : p.gunzip [] = none)
    (hUtf8Nil : p.toUtf8 [] = "")
    (hNull : p.bufferFromBase64 .vNull = none)
    (hUndef : p.bufferFromBase64 .vUndefined = none)
    (hFalse : p.bufferFromBase64 (.vBool false) = none)
    (hZero : p.bufferFromBase64 (.vNum 0) = none)
    (v : JSVal) :
    tryDecodeXml p v = specTryDecodeXml p v := by
  cases htv : truthy v with
  | true => simp [tryDecodeXml, specTryDecodeXml, htv]
  | false =>
    cases v with
    | vUndefined =>
      simp [tryDecodeXml, specTryDecodeXml, step1, step2, step3, hUndef, truthy]
    | vNull =>
      simp [tryDecodeXml, specTryDecodeXml, step1, step2, step3, hNull, truthy]
    | vBool b =>
      have hb : b = false := by simpa [truthy] using htv
      subst hb
      simp [tryDecodeXml, specTryDecodeXml, step1, step2, step3, hFalse, truthy]
    | vNum n =>
      have hn : n = 0 := by simpa [truthy] using htv
      subst hn
      simp [tryDecodeXml, specTryDecodeXml, step1, step2, step3, hZero, truthy]
    | vStr s =>
      have hs : s = "" := by simpa [truthy] using htv
      subst hs
      have hlt : trimStartsLt "" = false := rfl
      simp [tryDecodeXml, specTryDecodeXml, step1, step2, step3,
            hEmptyBuf, hGunzipNil, hUtf8Nil, hlt, truthy]
    | vArr xs => simp [truthy] at htv
    | vObj fs => simp [truthy] at htv

/-- Witness for C1: the equality evaluated at a raw-XML string payload
under the concrete primitives `prim0`. -/
theorem tryDecodeXml_matches_spec_reference_witness :
    tryDecodeXml prim0 (.vStr "<a/>") = specTryDecodeXml prim0 (.vStr "<a/>") :=
  tryDecodeXml_matches_spec_reference prim0 rfl rfl rfl rfl rfl rfl rfl (.vStr "<a/>")

/--
C10: the two near-duplicate copies of the decoding function (source
lines 77–105 and 277–305) are extensionally equal: on every payload
value, and for any behaviour of the underlying Node primitives, both
return the same result.
-/
theorem tryDecodeXml_copies_agree (p : Prim) (v : JSVal) :
    tryDecodeXml p v = tryDecodeXmlV2 p v := by
  cases htv : truthy v with
  | false => simp [tryDecodeXml, tryDecodeXmlV2, htv]
  | true =>
    simp only [tryDecodeXml, tryDecodeXmlV2, htv, if_true, v2rest_eq, step1]
    cases hb : p.bufferFromBase64 v with
    | none => rfl
    | some buff =>
      simp only []
      cases hg : p.gunzip buff with
      | none => rfl
      | some unzipped =>
        simp only []
        cases hx : trimStartsLt (p.toUtf8 unzipped) <;> simp [hx]

/-- Witness for C10: both copies evaluated at a raw-XML string payload
under the concrete primitives `prim0`. -/
theorem tryDecodeXml_copies_agree_witness :
    tryDecodeXml prim0 (.vStr "<a/>") = tryDecodeXmlV2 prim0 (.vStr "<a/>") :=
  tryDecodeXml_copies_agree prim0 (.vStr "<a/>")

/-- A fully populated configuration used in concrete instances. -/
def cfgOk : Config :=
  { nacionalBaseURL := some "https://api.example"
    certPfxBase64 := some "QUJD"
    certPfxPassphrase := some "pw" }

/-- Counterexample for C2: a request with the non-numeric `nsu` value
`"abc"` is *not* rejected with 400 — `safeInt` coerces it to `0`, the
handler answers 200 from the upstream data, and one upstream call is
made. -/
theorem nonNumeric_nsu_not_rejected :
    (distribuicaoHandler cfgOk (.ok (.vObj []))
        { nsu := some "abc", cnpjConsulta := none, lote := none }).resp.status = 200 ∧
    (distribuicaoHandler cfgOk (.ok (.vObj []))
        { nsu := some "abc", cnpjConsulta := none, lote := none }).calls.length = 1 :=
  ⟨rfl, rfl⟩

/--
C2 (amended): for every inbound request to `GET /nfse/distribuicao` or
`GET /nfse/documento` whose `nsu` query parameter is missing (or empty),
the handler returns HTTP 400 and makes zero upstream calls.  A present
non-numeric `nsu` is not rejected: `safeInt` coerces it to `0` and the
request is dispatched upstream.
-/
theorem missing_nsu_yields_400_no_upstream (p : Prim) (cfg : Config)
    (upstream : UpstreamOutcome) (req : Request)
    (h : req.nsu = none ∨ req.nsu = some "") :
    ((distribuicaoHandler cfg upstream req).resp.status = 400 ∧
     (distribuicaoHandler cfg upstream req).calls = []) ∧
    ((documentoHandler p cfg upstream req).resp.status = 400 ∧
     (documentoHandler p cfg upstream req).calls = []) := by
  have hf : strOptTruthy req.nsu = false := by
    rcases h with h | h <;> simp [h, strOptTruthy]
  simp [distribuicaoHandler, documentoHandler, hf, nsuMissingResp]

/-- Witness for C2 (amended): a request with no `nsu` parameter, against
a fully configured gateway and an upstream that would answer. -/
theorem missing_nsu_yields_400_no_upstream_witness :
    ((distribuicaoHandler cfgOk (.ok (.vObj []))
        { nsu := none, cnpjConsulta := none, lote := none }).resp.status = 400 ∧
     (distribuicaoHandler cfgOk (.ok (.vObj []))
        { nsu := none, cnpjConsulta := none, lote := none }).calls = []) ∧
    ((documentoHandler prim0 cfgOk (.ok (.vObj []))
        { nsu := none, cnpjConsulta := none, lote := none }).resp.status = 400 ∧
     (documentoHandler prim0 cfgOk (.ok (.vObj []))
        { nsu := none, cnpjConsulta := none, lote := none }).calls = []) :=
  missing_nsu_yields_400_no_upstream prim0 cfgOk (.ok (.vObj []))
    { nsu := none, cnpjConsulta := none, lote := none } (Or.inl rfl)

/-- Counterexample for C3: the request `?nsu=-5` passes validation and
dispatches the upstream path `/DFe/` followed by `-5`, whose
interpolated NSU is a negative integer. -/
theorem negative_nsu_dispatched :
    (distribuicaoHandler cfgOk (.ok (.vObj []))
        { nsu := some "-5", cnpjConsulta := none, lote := none }).calls.map
      (fun c => c.path) = ["/DFe/-5"] :=
  rfl

/-- Every upstream call either handler dispatches carries the path
`/DFe/` followed by the rendering of `safeInt(nsu, 0)`. -/
theorem handler_calls_path (p : Prim) (cfg : Config)
    (upstream : UpstreamOutcome) (req : Request) :
    (∀ c ∈ (distribuicaoHandler cfg upstream req).calls,
       c.path = "/DFe/" ++ jsIntToString (safeInt req.nsu 0)) ∧
    (∀ c ∈ (documentoHandler p cfg upstream req).calls,
       c.path = "/DFe/" ++ jsIntToString (safeInt req.nsu 0)) := by
  constructor
  · intro c hc
    simp only [distribuicaoHandler] at hc
    split at hc
    · split at hc
      · simp at hc
      · split at hc <;> simp_all
    · simp at hc
  · intro c hc
    simp only [documentoHandler] at hc
    split at hc
    · split at hc
      · simp at hc
      · split at hc
        · simp_all
        · split at hc <;> simp_all
    · simp at hc

/--
C3 (amended): for every inbound request that reaches the upstream
dispatch, the NSU value interpolated into `/DFe/{nsu}` is
`safeInt(nsu, 0)`: the finite number the query value coerces to (`0`
for a non-numeric value).  It is not necessarily a non-negative
integer — negative values pass through unchanged.
-/
theorem dispatch_path_is_safeInt (p : Prim) (cfg : Config)
    (upstream : UpstreamOutcome) (req : Request) :
    (∀ c ∈ (distribuicaoHandler cfg upstream req).calls,
       c.path = "/DFe/" ++ jsIntToString (safeInt req.nsu 0)) ∧
    (∀ c ∈ (documentoHandler p cfg upstream req).calls,
       c.path = "/DFe/" ++ jsIntToString (safeInt req.nsu 0)) :=
  handler_calls_path p cfg upstream req

/-- Witness for C3 (amended): the single call dispatched for `?nsu=-5`
carries the path `/DFe/` followed by the rendering of
`safeInt("-5", 0) = -5`. -/
theorem dispatch_path_is_safeInt_witness :
    (UpstreamCall.mk "/DFe/-5" none true).path =
      "/DFe/" ++ jsIntToString (safeInt (some "-5") 0) :=
  (dispatch_path_is_safeInt prim0 cfgOk (.ok (.vObj []))
      { nsu := some "-5", cnpjConsulta := none, lote := none }).1
    (UpstreamCall.mk "/DFe/-5" none true)
    (List.mem_singleton.mpr rfl)

/-- `List.find?` returns the element at the first index satisfying the
predicate, every earlier index failing it. -/
theorem find?_some_first {α : Type _} (pred : α → Bool) :
    ∀ (l : List α) (a : α), l.find? pred = some a →
      ∃ i, ∃ h : i < l.length, l.get ⟨i, h⟩ = a ∧ pred a = true ∧
        ∀ j, (hj : j < i) → pred (l.get ⟨j, Nat.lt_trans hj h⟩) = false := by
  intro l
  induction l with
  | nil => intro a h; simp [List.find?] at h
  | cons x xs ih =>
    intro a h
    cases hpx : pred x with
    | true =>
      rw [List.find?_cons_of_pos _ hpx] at h
      obtain rfl : x = a := by simpa using h
      exact ⟨0, by simp, rfl, hpx, fun j hj => absurd hj (Nat.not_lt_zero j)⟩
    | false =>
      rw [List.find?_cons_of_neg _ (by simp [hpx])] at h
      obtain ⟨i, hi, hget, hpa, hbef⟩ := ih a h
      refine ⟨i + 1, Nat.succ_lt_succ hi, hget, hpa, ?_⟩
      intro j hj
      cases j with
      | zero => simpa using hpx
      | succ j => simpa using hbef j (Nat.lt_of_succ_lt_succ hj)

/--
C4: when the upstream envelope's `LoteDFe` is an array, the document
endpoint's extraction selects exactly the first record whose
`ArquivoXml` field is non-empty (truthy), applies the decoding heuristic
to that single record's field — so a decode failure on it is final, with
no retry on later records — and yields absence when no record has a
non-empty field.
-/
theorem documento_selects_first_nonempty (p : Prim) (payload : JSVal) (l : List JSVal)
    (h : getField payload "LoteDFe" = .vArr l) :
    (∃ i, ∃ hi : i < l.length,
       truthy (getField (l.get ⟨i, hi⟩) "ArquivoXml") = true ∧
       (∀ j, (hj : j < i) →
          truthy (getField (l.get ⟨j, Nat.lt_trans hj hi⟩) "ArquivoXml") = false) ∧
       docXml p payload = tryDecodeXml p (getField (l.get ⟨i, hi⟩) "ArquivoXml")) ∨
    ((∀ x ∈ l, truthy (getField x "ArquivoXml") = false) ∧ docXml p payload = none) := by
  have hsel : selectItemComXml payload =
      l.find? (fun x => truthy (getField x "ArquivoXml")) := by
    simp [selectItemComXml, h]
  cases hres : l.find? (fun x => truthy (getField x "ArquivoXml")) with
  | none =>
    refine Or.inr ⟨fun x hx => ?_, ?_⟩
    · simpa using List.find?_eq_none.mp hres x hx
    · simp only [docXml, hsel, hres]; rfl
  | some r =>
    obtain ⟨i, hi, hget, hpr, hbef⟩ := find?_some_first _ l r hres
    refine Or.inl ⟨i, hi, ?_, hbef, ?_⟩
    · rw [hget]; simpa using hpr
    · rw [hget]; simp only [docXml, hsel, hres]

/-- Witness for C4: an envelope whose first record has an empty
`ArquivoXml` and whose second carries raw XML — the selection skips the
empty field. -/
theorem documento_selects_first_nonempty_witness :
    (∃ i, ∃ hi : i < ([JSVal.vObj [("ArquivoXml", JSVal.vStr "")],
                       JSVal.vObj [("ArquivoXml", JSVal.vStr "<Nfse/>")]] : List JSVal).length,
       truthy (getField (([JSVal.vObj [("ArquivoXml", JSVal.vStr "")],
                           JSVal.vObj [("ArquivoXml", JSVal.vStr "<Nfse/>")]] : List JSVal).get
                  ⟨i, hi⟩) "ArquivoXml") = true ∧
       (∀ j, (hj : j < i) →
          truthy (getField (([JSVal.vObj [("ArquivoXml", JSVal.vStr "")],
                              JSVal.vObj [("ArquivoXml", JSVal.vStr "<Nfse/>")]] : List JSVal).get
                     ⟨j, Nat.lt_trans hj hi⟩) "ArquivoXml") = false) ∧
       docXml prim0 (.vObj [("LoteDFe", .vArr
           [JSVal.vObj [("ArquivoXml", JSVal.vStr "")],
            JSVal.vObj [("ArquivoXml", JSVal.vStr "<Nfse/>")]])]) =
         tryDecodeXml prim0
           (getField (([JSVal.vObj [("ArquivoXml", JSVal.vStr "")],
                        JSVal.vObj [("ArquivoXml", JSVal.vStr "<Nfse/>")]] : List JSVal).get
              ⟨i, hi⟩) "ArquivoXml")) ∨
    ((∀ x ∈ ([JSVal.vObj [("ArquivoXml", JSVal.vStr "")],
              JSVal.vObj [("ArquivoXml", JSVal.vStr "<Nfse/>")]] : List JSVal),
        truthy (getField x "ArquivoXml") = false) ∧
     docXml prim0 (.vObj [("LoteDFe", .vArr
         [JSVal.vObj [("ArquivoXml", JSVal.vStr "")],
          JSVal.vObj [("ArquivoXml", JSVal.vStr "<Nfse/>")]])]) = none) :=
  documento_selects_first_nonempty prim0
    (.vObj [("LoteDFe", .vArr
        [JSVal.vObj [("ArquivoXml", JSVal.vStr "")],
         JSVal.vObj [("ArquivoXml", JSVal.vStr "<Nfse/>")]])])
    [JSVal.vObj [("ArquivoXml", JSVal.vStr "")],
     JSVal.vObj [("ArquivoXml", JSVal.vStr "<Nfse/>")]]
    rfl

/--
C5: on the document endpoint, for valid input with a successful upstream
call whose envelope yields no decodable XML, the response is HTTP 404
and the JSON diagnostic body's `retorno` field is the raw upstream
envelope.
-/
theorem documento_decode_miss_404 (p : Prim) (cfg : Config) (api : AxiosClient)
    (req : Request) (payload : JSVal)
    (hn : strOptTruthy req.nsu = true)
    (hb : buildAxios cfg = .ok api)
    (hx : docXml p payload = none) :
    (documentoHandler p cfg (.ok payload) req).resp.status = 404 ∧
    bodyJson (documentoHandler p cfg (.ok payload) req).resp =
      .vObj [("erro", .vStr "XML não encontrado nesse NSU"),
             ("dica", .vStr "Verifique se LoteDFe veio vazio, se o NSU existe, ou se ArquivoXml veio em formato inesperado."),
             ("retorno", payload)] ∧
    getField (bodyJson (documentoHandler p cfg (.ok payload) req).resp) "retorno" =
      payload := by
  simp [documentoHandler, hn, hb, hx, bodyJson, getField, List.lookup]

/-- Witness for C5: the upstream envelope with an empty record
collection (`LoteDFe` equal to `[]`) on `?nsu=5` yields 404, the
diagnostic body carrying it back in `retorno`. -/
theorem documento_decode_miss_404_witness :
    (documentoHandler prim0 cfgOk (.ok (.vObj [("LoteDFe", .vArr [])]))
        { nsu := some "5", cnpjConsulta := none, lote := none }).resp.status = 404 ∧
    bodyJson (documentoHandler prim0 cfgOk (.ok (.vObj [("LoteDFe", .vArr [])]))
        { nsu := some "5", cnpjConsulta := none, lote := none }).resp =
      .vObj [("erro", .vStr "XML não encontrado nesse NSU"),
             ("dica", .vStr "Verifique se LoteDFe veio vazio, se o NSU existe, ou se ArquivoXml veio em formato inesperado."),
             ("retorno", .vObj [("LoteDFe", .vArr [])])] ∧
    getField (bodyJson (documentoHandler prim0 cfgOk (.ok (.vObj [("LoteDFe", .vArr [])]))
        { nsu := some "5", cnpjConsulta := none, lote := none }).resp) "retorno" =
      .vObj [("LoteDFe", .vArr [])] :=
  documento_decode_miss_404 prim0 cfgOk
    { baseURL := "https://api.example"
      httpsAgent :=
        { pfxBase64 := "QUJD", passphrase := "pw"
          rejectUnauthorized := true, minVersion := "TLSv1.2" }
      timeout := 60000
      acceptHeader := "application/json, text/plain, application/xml, */*" }
    { nsu := some "5", cnpjConsulta := none, lote := none }
    (.vObj [("LoteDFe", .vArr [])]) rfl rfl rfl

/--
C6: on either endpoint, when the upstream call fails, the gateway
answers with the upstream's status code when one is available (else
500); the JSON error body's `detalhe` field carries the upstream
response body when present (else the error message) and its `fullUrl`
field carries the resolved upstream URL (the error config's base URL
concatenated with the request path); exactly one upstream attempt is
made — no retry.
-/
theorem upstream_failure_reported (p : Prim) (cfg : Config) (api : AxiosClient)
    (req : Request) (e : UpstreamErr)
    (hn : strOptTruthy req.nsu = true)
    (hb : buildAxios cfg = .ok api) :
    ((∀ st d, e.response = some (st, d) → st ≠ 0 →
        (distribuicaoHandler cfg (.fail e) req).resp.status = st) ∧
     (e.response = none → (distribuicaoHandler cfg (.fail e) req).resp.status = 500) ∧
     (∀ st d, e.response = some (st, d) → truthy d = true →
        getField (bodyJson (distribuicaoHandler cfg (.fail e) req).resp) "detalhe" = d) ∧
     (e.response = none → e.message ≠ "" →
        getField (bodyJson (distribuicaoHandler cfg (.fail e) req).resp) "detalhe" =
          .vObj [("message", .vStr e.message)]) ∧
     getField (bodyJson (distribuicaoHandler cfg (.fail e) req).resp) "fullUrl" =
       .vStr ((e.configBaseURL.getD "") ++ (e.configUrl.getD "")) ∧
     (distribuicaoHandler cfg (.fail e) req).calls.length = 1) ∧
    ((∀ st d, e.response = some (st, d) → st ≠ 0 →
        (documentoHandler p cfg (.fail e) req).resp.status = st) ∧
     (e.response = none → (documentoHandler p cfg (.fail e) req).resp.status = 500) ∧
     (∀ st d, e.response = some (st, d) → truthy d = true →
        getField (bodyJson (documentoHandler p cfg (.fail e) req).resp) "detalhe" = d) ∧
     (e.response = none → e.message ≠ "" →
        getField (bodyJson (documentoHandler p cfg (.fail e) req).resp) "detalhe" =
          .vObj [("message", .vStr e.message)]) ∧
     getField (bodyJson (documentoHandler p cfg (.fail e) req).resp) "fullUrl" =
       .vStr ((e.configBaseURL.getD "") ++ (e.configUrl.getD "")) ∧
     (documentoHandler p cfg (.fail e) req).calls.length = 1) := by
  refine ⟨⟨?_, ?_, ?_, ?_, ?_, ?_⟩, ?_, ?_, ?_, ?_, ?_, ?_⟩ <;>
    try intro st d hresp hcond
  all_goals
    simp_all [distribuicaoHandler, documentoHandler, hn, hb, errResp, buildErrorDebug,
      jsonErrBody, bodyJson, getField, List.lookup]

/-- Witness for C6: a 503 upstream response with a truthy body, reported
verbatim on both endpoints with the resolved URL and a single
dispatched call. -/
theorem upstream_failure_reported_witness :
    (distribuicaoHandler cfgOk
        (.fail { response := some (503, .vStr "Service Unavailable")
                 message := "Request failed with status code 503"
                 configBaseURL := some "https://api.example"
                 configUrl := some "/DFe/7" })
        { nsu := some "7", cnpjConsulta := none, lote := none }).resp.status = 503 ∧
    getField (bodyJson (distribuicaoHandler cfgOk
        (.fail { response := some (503, .vStr "Service Unavailable")
                 message := "Request failed with status code 503"
                 configBaseURL := some "https://api.example"
                 configUrl := some "/DFe/7" })
        { nsu := some "7", cnpjConsulta := none, lote := none }).resp) "detalhe" =
      .vStr "Service Unavailable" ∧
    getField (bodyJson (distribuicaoHandler cfgOk
        (.fail { response := some (503, .vStr "Service Unavailable")
                 message := "Request failed with status code 503"
                 configBaseURL := some "https://api.example"
                 configUrl := some "/DFe/7" })
        { nsu := some "7", cnpjConsulta := none, lote := none }).resp) "fullUrl" =
      .vStr ((some "https://api.example").getD "" ++ (some "/DFe/7").getD "") ∧
    (documentoHandler prim0 cfgOk
        (.fail { response := some (503, .vStr "Service Unavailable")
                 message := "Request failed with status code 503"
                 configBaseURL := some "https://api.example"
                 configUrl := some "/DFe/7" })
        { nsu := some "7", cnpjConsulta := none, lote := none }).resp.status = 503 ∧
    (documentoHandler prim0 cfgOk
        (.fail { response := some (503, .vStr "Service Unavailable")
                 message := "Request failed with status code 503"
                 configBaseURL := some "https://api.example"
                 configUrl := some "/DFe/7" })
        { nsu := some "7", cnpjConsulta := none, lote := none }).calls.length = 1 := by
  have h := upstream_failure_reported prim0 cfgOk
    { baseURL := "https://api.example"
      httpsAgent :=
        { pfxBase64 := "QUJD", passphrase := "pw"
          rejectUnauthorized := true, minVersion := "TLSv1.2" }
      timeout := 60000
      acceptHeader := "application/json, text/plain, application/xml, */*" }
    { nsu := some "7", cnpjConsulta := none, lote := none }
    { response := some (503, .vStr "Service Unavailable")
      message := "Request failed with status code 503"
      configBaseURL := some "https://api.example"
      configUrl := some "/DFe/7" }
    rfl rfl
  exact ⟨h.1.1 503 (.vStr "Service Unavailable") rfl (by decide),
         h.1.2.2.1 503 (.vStr "Service Unavailable") rfl (by decide),
         h.1.2.2.2.2.1,
         h.2.1 503 (.vStr "Service Unavailable") rfl (by decide),
         h.2.2.2.2.2.2⟩

/-- A completely absent configuration piece makes `buildAxios` throw a
non-empty configuration error message. -/
theorem buildAxios_error_of_missing (cfg : Config)
    (h : strOptTruthy cfg.certPfxBase64 = false ∨
         strOptTruthy cfg.certPfxPassphrase = false ∨
         strOptTruthy cfg.nacionalBaseURL = false) :
    ∃ m, buildAxios cfg = .error m ∧ m ≠ "" := by
  by_cases hurl : strOptTruthy cfg.nacionalBaseURL
  · by_cases hpfx : strOptTruthy cfg.certPfxBase64
    · by_cases hpw : strOptTruthy cfg.certPfxPassphrase
      · simp [hurl, hpfx, hpw] at h
      · exact ⟨"CERT_PFX_PASSPHRASE ausente",
          by simp [buildAxios, buildMtlsAgent, hurl, hpfx, hpw], by decide⟩
    · exact ⟨"CERT_PFX_BASE64 ausente",
        by simp [buildAxios, buildMtlsAgent, hurl, hpfx], by decide⟩
  · exact ⟨"NACIONAL_BASE_URL ausente", by simp [buildAxios, hurl], by decide⟩

/-- Counterexample for C8: certificate material that is present but
malformed (not valid base64, not a PKCS#12 container) does *not* make
the client builder fail fast — `Buffer.from(s, "base64")` is total on
strings and `https.Agent` stores its options without parsing the
PKCS#12 blob at construction time, so the source's only fail-fast checks
are the presence checks, and the builder succeeds. -/
theorem malformed_pfx_not_failfast :
    buildMtlsAgent
      { nacionalBaseURL := some "https://api.example"
        certPfxBase64 := some "%%%not-base64%%%"
        certPfxPassphrase := some "pw" } =
    .ok { pfxBase64 := "%%%not-base64%%%", passphrase := "pw"
          rejectUnauthorized := true, minVersion := "TLSv1.2" } :=
  rfl

/--
C8 (amended): if the PKCS#12 blob, its passphrase, or the base URL is
missing from the configuration, the client builder fails fast with a
configuration error (a thrown `Error` with no upstream response — hence
distinct from a network error), and every request that triggers client
construction is answered with HTTP 500 carrying that message in
`detalhe`, with zero upstream calls made — so no unauthenticated
upstream connection is ever attempted.  Malformedness of *present*
certificate material is not detected at construction time (Node parses
the PKCS#12 container only when a connection is made).
-/
theorem missing_config_yields_500_no_upstream (p : Prim) (cfg : Config)
    (upstream : UpstreamOutcome) (req : Request)
    (hn : strOptTruthy req.nsu = true)
    (h : strOptTruthy cfg.certPfxBase64 = false ∨
         strOptTruthy cfg.certPfxPassphrase = false ∨
         strOptTruthy cfg.nacionalBaseURL = false) :
    ∃ m, buildAxios cfg = .error m ∧ m ≠ "" ∧
      (distribuicaoHandler cfg upstream req).resp.status = 500 ∧
      (distribuicaoHandler cfg upstream req).calls = [] ∧
      getField (bodyJson (distribuicaoHandler cfg upstream req).resp) "detalhe" =
        .vObj [("message", .vStr m)] ∧
      (documentoHandler p cfg upstream req).resp.status = 500 ∧
      (documentoHandler p cfg upstream req).calls = [] ∧
      getField (bodyJson (documentoHandler p cfg upstream req).resp) "detalhe" =
        .vObj [("message", .vStr m)] := by
  obtain ⟨m, hm, hne⟩ := buildAxios_error_of_missing cfg h
  refine ⟨m, hm, hne, ?_, ?_, ?_, ?_, ?_, ?_⟩ <;>
    simp [distribuicaoHandler, documentoHandler, hn, hm, hne, errResp,
      buildErrorDebug, jsonErrBody, bodyJson, getField, List.lookup]

/-- Witness for C8 (amended): a configuration with no passphrase set;
both endpoints answer 500 with the configuration error and make no
upstream call. -/
theorem missing_config_yields_500_no_upstream_witness :
    ∃ m, buildAxios
        { nacionalBaseURL := some "https://api.example"
          certPfxBase64 := some "QUJD"
          certPfxPassphrase := none } = .error m ∧ m ≠ "" ∧
      (distribuicaoHandler
          { nacionalBaseURL := some "https://api.example"
            certPfxBase64 := some "QUJD"
            certPfxPassphrase := none }
          (.ok (.vObj []))
          { nsu := some "7", cnpjConsulta := none, lote := none }).resp.status = 500 ∧
      (distribuicaoHandler
          { nacionalBaseURL := some "https://api.example"
            certPfxBase64 := some "QUJD"
            certPfxPassphrase := none }
          (.ok (.vObj []))
          { nsu := some "7", cnpjConsulta := none, lote := none }).calls = [] ∧
      getField (bodyJson (distribuicaoHandler
          { nacionalBaseURL := some "https://api.example"
            certPfxBase64 := some "QUJD"
            certPfxPassphrase := none }
          (.ok (.vObj []))
          { nsu := some "7", cnpjConsulta := none, lote := none }).resp) "detalhe" =
        .vObj [("message", .vStr m)] ∧
      (documentoHandler prim0
          { nacionalBaseURL := some "https://api.example"
            certPfxBase64 := some "QUJD"
            certPfxPassphrase := none }
          (.ok (.vObj []))
          { nsu := some "7", cnpjConsulta := none, lote := none }).resp.status = 500 ∧
      (documentoHandler prim0
          { nacionalBaseURL := some "https://api.example"
            certPfxBase64 := some "QUJD"
            certPfxPassphrase := none }
          (.ok (.vObj []))
          { nsu := some "7", cnpjConsulta := none, lote := none }).calls = [] ∧
      getField (bodyJson (documentoHandler prim0
          { nacionalBaseURL := some "https://api.example"
            certPfxBase64 := some "QUJD"
            certPfxPassphrase := none }
          (.ok (.vObj []))
          { nsu := some "7", cnpjConsulta := none, lote := none }).resp) "detalhe" =
        .vObj [("message", .vStr m)] :=
  missing_config_yields_500_no_upstream prim0
    { nacionalBaseURL := some "https://api.example"
      certPfxBase64 := some "QUJD"
      certPfxPassphrase := none }
    (.ok (.vObj []))
    { nsu := some "7", cnpjConsulta := none, lote := none }
    rfl (Or.inr (Or.inl rfl))

/-- A decimal digit's character is a digit character. -/
theorem isDigitChar_digitChar (d : Nat) (h : d < 10) :
    isDigitChar (digitChar d) = true := by
  interval_cases d <;> decide

/-- A decimal digit's character evaluates back to the digit. -/
theorem digitVal_digitChar (d : Nat) (h : d < 10) :
    digitVal (digitChar d) = d := by
  interval_cases d <;> decide

/-- The fuel-indexed rendering produces a non-empty all-digit list
whenever the fuel exceeds the number. -/
theorem natDecimalGo_digits (fuel : Nat) :
    ∀ n, n < fuel →
      (∀ c ∈ natDecimalGo fuel n, isDigitChar c = true) ∧ natDecimalGo fuel n ≠ [] := by
  induction fuel with
  | zero => intro n h; omega
  | succ fuel ih =>
    intro n hn
    simp only [natDecimalGo]
    by_cases h10 : n < 10
    · simp only [h10, if_true]
      refine ⟨?_, by simp⟩
      intro c hc
      obtain rfl : c = digitChar n := by simpa using hc
      exact isDigitChar_digitChar n h10
    · have hdiv : n / 10 < fuel := by omega
      obtain ⟨hall, hne⟩ := ih (n / 10) hdiv
      simp only [h10, if_false]
      refine ⟨?_, by simp⟩
      intro c hc
      rcases List.mem_append.mp hc with hc | hc
      · exact hall c hc
      · obtain rfl : c = digitChar (n % 10) := by simpa using hc
        exact isDigitChar_digitChar _ (Nat.mod_lt n (by omega))

/-- Folding the digit accumulator over the rendering of `n` recovers
`n` (shifted under the accumulator). -/
theorem natDecimalGo_foldl (fuel : Nat) :
    ∀ n, n < fuel → ∀ acc,
      (natDecimalGo fuel n).foldl (fun a c => a * 10 + digitVal c) acc =
        acc * 10 ^ (natDecimalGo fuel n).length + n := by
  induction fuel with
  | zero => intro n h; omega
  | succ fuel ih =>
    intro n hn acc
    simp only [natDecimalGo]
    by_cases h10 : n < 10
    · simp [h10, digitVal_digitChar n h10]
    · have hdiv : n / 10 < fuel := by omega
      simp only [h10, if_false, List.foldl_append, List.length_append,
        List.length_singleton]
      rw [ih (n / 10) hdiv acc]
      simp only [List.foldl_cons, List.foldl_nil,
        digitVal_digitChar (n % 10) (Nat.mod_lt n (by omega))]
      have hdm : n / 10 * 10 + n % 10 = n := by omega
      calc (acc * 10 ^ (natDecimalGo fuel (n / 10)).length + n / 10) * 10 + n % 10
          = acc * (10 ^ (natDecimalGo fuel (n / 10)).length * 10) +
              (n / 10 * 10 + n % 10) := by ring
        _ = acc * 10 ^ ((natDecimalGo fuel (n / 10)).length + 1) + n := by
              rw [hdm, pow_succ]

/-- Parsing the decimal rendering of `n` gives back `n`. -/
theorem parseDigits_natDecimalList (n : Nat) :
    parseDigits (natDecimalList n) = some n := by
  obtain ⟨hall, hne⟩ := natDecimalGo_digits (n + 1) n (by omega)
  have hf := natDecimalGo_foldl (n + 1) n (by omega) 0
  unfold parseDigits natDecimalList
  rw [if_neg (by simpa [List.isEmpty_iff] using hne),
      if_pos (List.all_eq_true.mpr hall)]
  simpa using hf

/-- Trimming is the identity on an all-digit character list. -/
theorem jsTrimList_of_digits (l : List Char)
    (h : ∀ c ∈ l, isDigitChar c = true) : jsTrimList l = l := by
  have hws : ∀ c ∈ l, isJsWs c = false := by
    intro c hc
    have hd := h c hc
    simp only [isDigitChar, decide_eq_true_eq] at hd
    simp only [isJsWs, decide_eq_false_iff_not]
    omega
  have hdrop : ∀ m : List Char, (∀ c ∈ m, isJsWs c = false) → m.dropWhile isJsWs = m := by
    intro m hm
    cases m with
    | nil => rfl
    | cons x xs =>
      rw [List.dropWhile_cons, hm x (List.mem_cons_self x xs)]
      simp
  unfold jsTrimList
  rw [hdrop l hws,
      hdrop l.reverse (fun c hc => hws c (List.mem_reverse.mp hc)),
      List.reverse_reverse]

/-- `Number` on the canonical decimal rendering of a natural number
recovers it. -/
theorem jsStringToNumber_natDecimal (n : Nat) :
    jsStringToNumber (String.mk (natDecimalList n)) = some (n : Int) := by
  obtain ⟨hall, hne⟩ := natDecimalGo_digits (n + 1) n (by omega)
  have htrim : jsTrimList (natDecimalList n) = natDecimalList n :=
    jsTrimList_of_digits _ hall
  obtain ⟨c, rest, hcons⟩ : ∃ c rest, natDecimalList n = c :: rest := by
    cases h : natDecimalList n with
    | nil => exact absurd h hne
    | cons c rest => exact ⟨c, rest, rfl⟩
  have hmem : c ∈ natDecimalGo (n + 1) n := by
    rw [show natDecimalGo (n + 1) n = natDecimalList n from rfl, hcons]
    exact List.mem_cons_self c rest
  have hcd : isDigitChar c = true := hall c hmem
  have hc1 : ¬ c = '-' := by
    intro hc; subst hc; exact absurd hcd (by decide)
  have hc2 : ¬ c = '+' := by
    intro hc; subst hc; exact absurd hcd (by decide)
  have hdata : (String.mk (natDecimalList n)).data = natDecimalList n := rfl
  unfold jsStringToNumber
  rw [hdata, htrim, hcons]
  simp only [hc1, if_false, hc2, ← hcons, parseDigits_natDecimalList]
  rfl

/-- The canonical decimal rendering of a natural number is a truthy
(non-empty) query value. -/
theorem natDecimal_truthy (n : Nat) :
    strOptTruthy (some (String.mk (natDecimalList n))) = true := by
  obtain ⟨-, hne⟩ := natDecimalGo_digits (n + 1) n (by omega)
  simp only [strOptTruthy, decide_eq_true_eq]
  intro h
  exact hne (congrArg String.data h)

/--
C7: for every NSU input value that is a non-negative integer (given
canonically in decimal), the upstream request path on either endpoint is
`/DFe/{nsu}` with `nsu` rendered as the decimal integer string matching
the input exactly.
-/
theorem nonneg_nsu_path_exact (p : Prim) (cfg : Config)
    (upstream : UpstreamOutcome) (cnpj lote : Option String) (n : Nat) :
    (∀ c ∈ (distribuicaoHandler cfg upstream
        { nsu := some (String.mk (natDecimalList n)),
          cnpjConsulta := cnpj, lote := lote }).calls,
       c.path = "/DFe/" ++ String.mk (natDecimalList n)) ∧
    (∀ c ∈ (documentoHandler p cfg upstream
        { nsu := some (String.mk (natDecimalList n)),
          cnpjConsulta := cnpj, lote := lote }).calls,
       c.path = "/DFe/" ++ String.mk (natDecimalList n)) := by
  have hsafe : safeInt (some (String.mk (natDecimalList n))) 0 = (n : Int) := by
    simp [safeInt, jsToNumber, jsStringToNumber_natDecimal]
  have hrender : jsIntToString (safeInt (some (String.mk (natDecimalList n))) 0) =
      String.mk (natDecimalList n) := by
    rw [hsafe]; rfl
  have h := handler_calls_path p cfg upstream
    { nsu := some (String.mk (natDecimalList n)), cnpjConsulta := cnpj, lote := lote }
  refine ⟨fun c hc => ?_, fun c hc => ?_⟩
  · rw [h.1 c hc, hrender]
  · rw [h.2 c hc, hrender]

/-- Witness for C7: `?nsu=7` dispatches exactly `/DFe/` followed by
`7`. -/
theorem nonneg_nsu_path_exact_witness :
    (UpstreamCall.mk "/DFe/7" none true).path =
      "/DFe/" ++ String.mk (natDecimalList 7) :=
  (nonneg_nsu_path_exact prim0 cfgOk (.ok (.vObj [])) none none 7).1
    (UpstreamCall.mk "/DFe/7" none true)
    (List.mem_singleton.mpr rfl)

/--
C9: on the document endpoint, for valid input (an `nsu` that parses to
the sequence number `n`) where the upstream call succeeds and the
decoding heuristic yields an XML string, the response is HTTP 200 with
headers `Content-Type: application/xml; charset=utf-8` and
`Content-Disposition: attachment; filename="nfse_{n}.xml"`, and the
body is exactly the decoded XML string.
-/
theorem documento_success_xml_attachment (p : Prim) (cfg : Config) (api : AxiosClient)
    (req : Request) (payload : JSVal) (xml : String) (n : Int)
    (hn : strOptTruthy req.nsu = true)
    (hnum : jsToNumber req.nsu = some n)
    (hb : buildAxios cfg = .ok api)
    (hx : docXml p payload = some xml) :
    (documentoHandler p cfg (.ok payload) req).resp.status = 200 ∧
    (documentoHandler p cfg (.ok payload) req).resp.headers =
      [("Content-Type", "application/xml; charset=utf-8"),
       ("Content-Disposition",
        "attachment; filename=\"nfse_" ++ jsIntToString n ++ ".xml\"")] ∧
    (documentoHandler p cfg (.ok payload) req).resp.body = .text xml := by
  have hsafe : safeInt req.nsu 0 = n := by simp [safeInt, hnum]
  simp [documentoHandler, hn, hb, hx, hsafe]

/-- Witness for C9: a record carrying raw XML on `?nsu=7` is served as
a 200 XML attachment named for the NSU. -/
theorem documento_success_xml_attachment_witness :
    (documentoHandler prim0 cfgOk
        (.ok (.vObj [("LoteDFe", .vArr [.vObj [("ArquivoXml", .vStr "<Nfse/>")]])]))
        { nsu := some "7", cnpjConsulta := none, lote := none }).resp.status = 200 ∧
    (documentoHandler prim0 cfgOk
        (.ok (.vObj [("LoteDFe", .vArr [.vObj [("ArquivoXml", .vStr "<Nfse/>")]])]))
        { nsu := some "7", cnpjConsulta := none, lote := none }).resp.headers =
      [("Content-Type", "application/xml; charset=utf-8"),
       ("Content-Disposition",
        "attachment; filename=\"nfse_" ++ jsIntToString 7 ++ ".xml\"")] ∧
    (documentoHandler prim0 cfgOk
        (.ok (.vObj [("LoteDFe", .vArr [.vObj [("ArquivoXml", .vStr "<Nfse/>")]])]))
        { nsu := some "7", cnpjConsulta := none, lote := none }).resp.body =
      .text "<Nfse/>" :=
  documento_success_xml_attachment prim0 cfgOk
    { baseURL := "https://api.example"
      httpsAgent :=
        { pfxBase64 := "QUJD", passphrase := "pw"
          rejectUnauthorized := true, minVersion := "TLSv1.2" }
      timeout := 60000
      acceptHeader := "application/json, text/plain, application/xml, */*" }
    { nsu := some "7", cnpjConsulta := none, lote := none }
    (.vObj [("LoteDFe", .vArr [.vObj [("ArquivoXml", .vStr "<Nfse/>")]])])
    "<Nfse/>" 7 rfl rfl rfl rfl

end NfseGateway
